import Mathlib

set_option maxHeartbeats 1000000

/-!  Verification of the pager state machine of `pcsv` (`src/pager.rs`).

The Rust struct `PagerState` and its methods are shallowly embedded below.
`usize` and `u16` fields become `Nat`; Rust's `saturating_sub` is `Nat`
subtraction (which already saturates at zero); `usize::min` is `Nat.min`.
Rust integer division panics when the divisor is zero, so the methods that
compute `current_row / rows_per_page` are embedded in `Option`, with `none`
standing for the division-by-zero panic.  -/

/-- State of the pager, mirroring the Rust struct `PagerState`. -/
structure PagerState where
  current_page : Nat
  total_pages : Nat
  rows_per_page : Nat
  total_rows : Nat
  current_row : Nat
  terminal_height : Nat
  terminal_width : Nat
deriving DecidableEq

/-- Rust `usize` division: panics (`none`) when the divisor is zero. -/
def checkedDiv (a b : Nat) : Option Nat :=
  if b = 0 then none else some (a / b)

/-- `PagerState::new(total_rows)`.  The terminal size obtained from
`terminal::size()?` is passed in as the two extra parameters. -/
def PagerState.new (total_rows terminal_width terminal_height : Nat) : PagerState :=
  let rows_per_page := terminal_height
  let total_pages :=
    if rows_per_page > 0 then (total_rows + rows_per_page - 1) / rows_per_page else 1
  { current_page := 0
    total_pages := total_pages
    rows_per_page := rows_per_page
    total_rows := total_rows
    current_row := 0
    terminal_height := terminal_height
    terminal_width := terminal_width }

/-- `PagerState::go_to_page(page)`. -/
def PagerState.go_to_page (s : PagerState) (page : Nat) : PagerState :=
  let cp := min page (s.total_pages - 1)
  { s with current_page := cp, current_row := cp * s.rows_per_page }

/-- `PagerState::next_page()`. -/
def PagerState.next_page (s : PagerState) : PagerState :=
  if s.current_page < s.total_pages - 1 then s.go_to_page (s.current_page + 1) else s

/-- `PagerState::prev_page()`. -/
def PagerState.prev_page (s : PagerState) : PagerState :=
  if s.current_page > 0 then s.go_to_page (s.current_page - 1) else s

/-- `PagerState::next_row()`; the division `current_row / rows_per_page`
panics when `rows_per_page = 0`. -/
def PagerState.next_row (s : PagerState) : Option PagerState :=
  if s.current_row < s.total_rows - 1 then
    (checkedDiv (s.current_row + 1) s.rows_per_page).map
      (fun cp => { s with current_row := s.current_row + 1, current_page := cp })
  else
    some s

/-- `PagerState::prev_row()`. -/
def PagerState.prev_row (s : PagerState) : Option PagerState :=
  if s.current_row > 0 then
    (checkedDiv (s.current_row - 1) s.rows_per_page).map
      (fun cp => { s with current_row := s.current_row - 1, current_page := cp })
  else
    some s

/-- `PagerState::go_to_first()`. -/
def PagerState.go_to_first (s : PagerState) : PagerState :=
  s.go_to_page 0

/-- `PagerState::go_to_last()`. -/
def PagerState.go_to_last (s : PagerState) : PagerState :=
  s.go_to_page (s.total_pages - 1)

/-- `PagerState::get_page_start()`. -/
def PagerState.get_page_start (s : PagerState) : Nat :=
  s.current_page * s.rows_per_page

/-- `PagerState::get_page_end()`. -/
def PagerState.get_page_end (s : PagerState) : Nat :=
  min (s.get_page_start + s.rows_per_page) s.total_rows

/-- `PagerState::scroll_down(lines)`. -/
def PagerState.scroll_down (s : PagerState) (lines : Nat) : Option PagerState :=
  let cr := min (s.current_row + lines) (s.total_rows - 1)
  (checkedDiv cr s.rows_per_page).map
    (fun cp => { s with current_row := cr, current_page := cp })

/-- `PagerState::scroll_up(lines)`. -/
def PagerState.scroll_up (s : PagerState) (lines : Nat) : Option PagerState :=
  let cr := s.current_row - lines
  (checkedDiv cr s.rows_per_page).map
    (fun cp => { s with current_row := cr, current_page := cp })

/-- `PagerState::get_viewport_start()`. -/
def PagerState.get_viewport_start (s : PagerState) : Nat :=
  s.current_row

/-- `PagerState::get_viewport_end()`. -/
def PagerState.get_viewport_end (s : PagerState) : Nat :=
  min (s.current_row + s.rows_per_page) s.total_rows

/-- The `Ok(Event::Resize(width, height))` branch of `Pager::run`: update the
dimensions, recompute `rows_per_page` and `total_pages`, then
`go_to_page(current_page.min(total_pages - 1))`. -/
def PagerState.resize (s : PagerState) (width height : Nat) : PagerState :=
  let rpp := height
  let tp := if rpp > 0 then (s.total_rows + rpp - 1) / rpp else 1
  let s1 : PagerState :=
    { s with terminal_width := width, terminal_height := height,
             rows_per_page := rpp, total_pages := tp }
  s1.go_to_page (min s1.current_page (tp - 1))

/-- Key codes handled by `Pager::handle_key_event`, abstracting the crossterm
`KeyCode`s that quit the pager (`q`, `Esc`) from those that do not. -/
inductive PKey where
  | quit
  | navigate
deriving DecidableEq

/-- One iteration of the `rx.recv_timeout` match in `Pager::run`: a key event,
a resize event, any other event, or a receive timeout. -/
inductive PEvent where
  | key (k : PKey)
  | resizeEv (w h : Nat)
  | otherEv
  | timeout
deriving DecidableEq

/-- Outcome of `Pager::run`: whether it returned `Ok(())` and whether the
cleanup (`LeaveAlternateScreen` and `disable_raw_mode`) was executed before
returning. -/
structure RunOutcome where
  ok : Bool
  cleanedUp : Bool
deriving DecidableEq

/-- The main event loop of `Pager::run`.  `renderOk n` tells whether the
`n`-th call to `render` succeeds (its result depends on terminal I/O, not on
the pager state, so the state mutations inside the loop are not tracked).
A key event either quits (break, then cleanup) or mutates the state and
renders; a resize event mutates the state and renders; `render()?` on failure
propagates the error out of `run` immediately, before the cleanup lines.
`none` means the finite event prefix was exhausted with the loop still
running. -/
def runFrom (renderOk : Nat → Bool) : Nat → List PEvent → Option RunOutcome
  | _, [] => none
  | n, e :: rest =>
    match e with
    | PEvent.key PKey.quit => some { ok := true, cleanedUp := true }
    | PEvent.key PKey.navigate =>
        if renderOk n then runFrom renderOk (n + 1) rest
        else some { ok := false, cleanedUp := false }
    | PEvent.resizeEv _ _ =>
        if renderOk n then runFrom renderOk (n + 1) rest
        else some { ok := false, cleanedUp := false }
    | PEvent.otherEv => runFrom renderOk n rest
    | PEvent.timeout => runFrom renderOk n rest

/-- `Pager::run`, control flow only: enable raw mode and enter the alternate
screen (assumed to succeed), do the initial render (call number `0`), then
run the event loop.  An initial render failure exits through `?` with no
cleanup. -/
def runModel (renderOk : Nat → Bool) (events : List PEvent) : Option RunOutcome :=
  if renderOk 0 then runFrom renderOk 1 events
  else some { ok := false, cleanedUp := false }

/-- Ceiling division written as the spec states it: `total_rows / rows_per_page`
rounded up. -/
def ceilDivSpec (n k : Nat) : Nat :=
  n / k + (if n % k = 0 then 0 else 1)

/-- All fields of the second state other than `current_page` and `current_row`
agree with the first state. -/
def framePreserved (t s : PagerState) : Prop :=
  t.total_pages = s.total_pages ∧ t.rows_per_page = s.rows_per_page ∧
  t.total_rows = s.total_rows ∧ t.terminal_height = s.terminal_height ∧
  t.terminal_width = s.terminal_width

instance (t s : PagerState) : Decidable (framePreserved t s) := by
  unfold framePreserved
  infer_instance

/-- The invariant relating the page to the row: `current_page` is
`current_row / rows_per_page`. -/
def pageInv (s : PagerState) : Prop :=
  s.current_page = s.current_row / s.rows_per_page

instance (s : PagerState) : Decidable (pageInv s) := by
  unfold pageInv
  infer_instance

/-- A concrete in-bounds pager state used by the witnesses: 100 rows on a
20-row terminal, cursor on row 50 of page 2. -/
def sampleState : PagerState :=
  { current_page := 2, total_pages := 5, rows_per_page := 20, total_rows := 100,
    current_row := 50, terminal_height := 20, terminal_width := 80 }

/-- The Rust formula `(n + k - 1) / k` computes ceiling division for `k > 0`. -/
theorem rustCeil_eq_ceilDivSpec (n k : Nat) (hk : 0 < k) :
    (n + k - 1) / k = ceilDivSpec n k := by
  unfold ceilDivSpec
  cases n with
  | zero =>
      simp [Nat.div_eq_of_lt (Nat.sub_lt hk Nat.one_pos), Nat.zero_mod]
  | succ m =>
      have h1 : m + 1 + k - 1 = m + k := by omega
      rw [h1, Nat.add_div_right m hk, Nat.succ_div]
      have h2 : (m + 1) % k = 0 ↔ k ∣ (m + 1) := by
        exact Nat.dvd_iff_mod_eq_zero.symm
      by_cases hd : k ∣ (m + 1)
      · simp [hd, h2.mpr hd]
      · have : ¬ (m + 1) % k = 0 := fun hc => hd (h2.mp hc)
        simp [hd, this]

/-- A reachable pager state on a 20-row terminal with 57 rows, cursor on row
45 (page 2): the scenario of the resize example in the spec. -/
def c1Start : PagerState :=
  { current_page := 2, total_pages := 3, rows_per_page := 20, total_rows := 57,
    current_row := 45, terminal_height := 20, terminal_width := 80 }

/-- C1 counterexample: resizing from 20 to 10 rows per page with
`current_row = 45`, `total_rows = 57` does not keep `current_row = 45` and
does not set `current_page = 45 / 10 = 4`: the code snaps `current_row` to
`current_page * rows_per_page = 20` and keeps `current_page = 2`. -/
theorem c1_resize_counterexample :
    (c1Start.resize 80 10).current_row ≠ 45 ∧
    (c1Start.resize 80 10).current_page ≠ 4 ∧
    (c1Start.resize 80 10).current_row = 20 ∧
    (c1Start.resize 80 10).current_page = 2 := by
  decide

/-- C1 (amended): on a resize event the pager updates the dimensions, sets
`rows_per_page = height`, recomputes `total_pages` by ceiling division,
clamps `current_page` to the new `[0, total_pages - 1]`, and sets
`current_row = current_page * rows_per_page` — so `current_row` snaps to the
start of the retained page instead of being preserved. -/
theorem c1_resize_amended (s : PagerState) (w h : Nat) :
    (s.resize w h).terminal_width = w ∧
    (s.resize w h).terminal_height = h ∧
    (s.resize w h).rows_per_page = h ∧
    (s.resize w h).total_pages = (if 0 < h then ceilDivSpec s.total_rows h else 1) ∧
    (s.resize w h).current_page = min s.current_page ((s.resize w h).total_pages - 1) ∧
    (s.resize w h).current_row = (s.resize w h).current_page * h := by
  have hceil : (if h > 0 then (s.total_rows + h - 1) / h else 1)
      = (if 0 < h then ceilDivSpec s.total_rows h else 1) := by
    by_cases hh : 0 < h
    · simp [hh, rustCeil_eq_ceilDivSpec s.total_rows h hh]
    · simp [hh]
  refine ⟨rfl, rfl, rfl, hceil, ?_, rfl⟩
  have h2 : (s.resize w h).total_pages
      = (if h > 0 then (s.total_rows + h - 1) / h else 1) := rfl
  have h3 : (s.resize w h).current_page
      = min (min s.current_page ((if h > 0 then (s.total_rows + h - 1) / h else 1) - 1))
          ((if h > 0 then (s.total_rows + h - 1) / h else 1) - 1) := rfl
  rw [h2, h3]
  generalize (if h > 0 then (s.total_rows + h - 1) / h else 1) = tp
  omega

/-- C2: in a zero-height terminal state (`rows_per_page = 0`) with 100 rows,
`scroll_down`, `scroll_up` and `next_row` all reach the expression
`current_row / rows_per_page` with a zero divisor: the Rust code panics
(modelled as `none`) instead of completing. -/
theorem c2_zero_height_divides_by_zero :
    (PagerState.new 100 80 0).rows_per_page = 0 ∧
    (PagerState.new 100 80 0).total_pages = 1 ∧
    (PagerState.new 100 80 0).scroll_down 5 = none ∧
    (PagerState.new 100 80 0).scroll_up 3 = none ∧
    (PagerState.new 100 80 0).next_row = none := by
  decide

/-- C3 counterexample: with `total_rows = 0` on a 20-row terminal the
constructor computes `total_pages = (0 + 20 - 1) / 20 = 0`, so neither
`total_pages = 1` nor the invariant `total_pages ≥ 1` holds. -/
theorem c3_counterexample :
    (PagerState.new 0 80 20).total_pages = 0 ∧
    ¬ 1 ≤ (PagerState.new 0 80 20).total_pages := by
  decide

/-- C6: `go_to_page(p)` clamps `p` to `[0, total_pages - 1]`, sets
`current_page` to the clamped value and `current_row = current_page *
rows_per_page`; in particular with 100 rows on a 20-row terminal,
`go_to_page(10)` yields `current_page = 4` and `current_row = 80`. -/
theorem c6_go_to_page_clamps (s : PagerState) (p : Nat) :
    (s.go_to_page p).current_page = min p (s.total_pages - 1) ∧
    (s.go_to_page p).current_row = (s.go_to_page p).current_page * s.rows_per_page ∧
    (s.go_to_page p).current_page ≤ s.total_pages - 1 ∧
    (PagerState.new 100 80 20).total_pages = 5 ∧
    ((PagerState.new 100 80 20).go_to_page 10).current_page = 4 ∧
    ((PagerState.new 100 80 20).go_to_page 10).current_row = 80 := by
  refine ⟨rfl, rfl, ?_, by decide, by decide, by decide⟩
  show min p (s.total_pages - 1) ≤ s.total_pages - 1
  exact Nat.min_le_right _ _

/-- When `rows_per_page` is nonzero, `scroll_down` completes and yields the
clamped row together with its recomputed page. -/
theorem scroll_down_eq (s : PagerState) (l : Nat) (hk : s.rows_per_page ≠ 0) :
    s.scroll_down l = some { s with
      current_row := min (s.current_row + l) (s.total_rows - 1),
      current_page := min (s.current_row + l) (s.total_rows - 1) / s.rows_per_page } := by
  simp [PagerState.scroll_down, checkedDiv, hk]

/-- When `rows_per_page` is nonzero, `scroll_up` completes and yields the
saturating-subtracted row together with its recomputed page. -/
theorem scroll_up_eq (s : PagerState) (l : Nat) (hk : s.rows_per_page ≠ 0) :
    s.scroll_up l = some { s with
      current_row := s.current_row - l,
      current_page := (s.current_row - l) / s.rows_per_page } := by
  simp [PagerState.scroll_up, checkedDiv, hk]

/-- When `rows_per_page` is nonzero, `next_row` completes: it advances the row
when not on the last row and is the identity otherwise. -/
theorem next_row_eq (s : PagerState) (hk : s.rows_per_page ≠ 0) :
    s.next_row = some (if s.current_row < s.total_rows - 1 then
      { s with current_row := s.current_row + 1,
               current_page := (s.current_row + 1) / s.rows_per_page }
      else s) := by
  unfold PagerState.next_row
  split
  · simp [checkedDiv, hk, *]
  · simp [*]

/-- When `rows_per_page` is nonzero, `prev_row` completes: it moves the row
back when positive and is the identity otherwise. -/
theorem prev_row_eq (s : PagerState) (hk : s.rows_per_page ≠ 0) :
    s.prev_row = some (if s.current_row > 0 then
      { s with current_row := s.current_row - 1,
               current_page := (s.current_row - 1) / s.rows_per_page }
      else s) := by
  unfold PagerState.prev_row
  split
  · simp [checkedDiv, hk, *]
  · simp [*]

/-- C4: at construction the page count is the ceiling of
`total_rows / rows_per_page` whenever `rows_per_page ≥ 1`, and is `1` when
`rows_per_page = 0`; the resize recomputation follows the same formula. -/
theorem c4_total_pages_ceil (tr w h : Nat) (s : PagerState) :
    (0 < h → (PagerState.new tr w h).total_pages = ceilDivSpec tr h) ∧
    (PagerState.new tr w 0).total_pages = 1 ∧
    (0 < h → (s.resize w h).total_pages = ceilDivSpec s.total_rows h) ∧
    (s.resize w 0).total_pages = 1 := by
  refine ⟨?_, rfl, ?_, rfl⟩
  · intro hh
    have h1 : (PagerState.new tr w h).total_pages
        = (if h > 0 then (tr + h - 1) / h else 1) := rfl
    rw [h1]
    simp [hh, rustCeil_eq_ceilDivSpec tr h hh]
  · intro hh
    have h1 : (s.resize w h).total_pages
        = (if h > 0 then (s.total_rows + h - 1) / h else 1) := rfl
    rw [h1]
    simp [hh, rustCeil_eq_ceilDivSpec s.total_rows h hh]

/-- C4 witness: instantiation at 100 rows and a 20-row terminal. -/
theorem c4_total_pages_ceil_witness :
    (PagerState.new 100 80 20).total_pages = ceilDivSpec 100 20 ∧
    (sampleState.resize 80 20).total_pages = ceilDivSpec sampleState.total_rows 20 :=
  ⟨(c4_total_pages_ceil 100 80 20 sampleState).1 (by decide),
   (c4_total_pages_ceil 100 80 20 sampleState).2.2.1 (by decide)⟩

/-- C5: starting from an in-bounds row, `scroll_down` and `scroll_up` move
`current_row` by the requested amount with saturating/clamping arithmetic,
keep it inside `[0, total_rows - 1]` for every step size, and recompute
`current_page`; `next_row` and `prev_row` also keep the row in bounds. -/
theorem c5_scroll_clamped (s : PagerState) (l : Nat)
    (hrpp : 0 < s.rows_per_page) (hcr : s.current_row ≤ s.total_rows - 1) :
    s.scroll_down l = some { s with
      current_row := min (s.current_row + l) (s.total_rows - 1),
      current_page := min (s.current_row + l) (s.total_rows - 1) / s.rows_per_page } ∧
    min (s.current_row + l) (s.total_rows - 1) ≤ s.total_rows - 1 ∧
    s.scroll_up l = some { s with
      current_row := s.current_row - l,
      current_page := (s.current_row - l) / s.rows_per_page } ∧
    s.current_row - l ≤ s.total_rows - 1 ∧
    (∀ t, s.next_row = some t → t.current_row ≤ s.total_rows - 1) ∧
    (∀ t, s.prev_row = some t → t.current_row ≤ s.total_rows - 1) := by
  have hk : s.rows_per_page ≠ 0 := Nat.pos_iff_ne_zero.mp hrpp
  refine ⟨scroll_down_eq s l hk, Nat.min_le_right _ _, scroll_up_eq s l hk, ?_, ?_, ?_⟩
  · omega
  · intro t ht
    rw [next_row_eq s hk] at ht
    have ht2 := Option.some.inj ht
    subst ht2
    by_cases hb : s.current_row < s.total_rows - 1
    · simp only [if_pos hb]
      omega
    · simp only [if_neg hb]
      exact hcr
  · intro t ht
    rw [prev_row_eq s hk] at ht
    have ht2 := Option.some.inj ht
    subst ht2
    by_cases hb : s.current_row > 0
    · simp only [if_pos hb]
      omega
    · simp only [if_neg hb]
      exact hcr

/-- C5 witness: the spec's example — 100 rows, 20 rows per page, cursor on
row 0; `scroll_down(250)` clamps to row `min 250 99 = 99` on page
`99 / 20 = 4`, and the row stays in `[0, 99]` for every operation. -/
theorem c5_scroll_clamped_witness :
    (PagerState.new 100 80 20).scroll_down 250 = some { PagerState.new 100 80 20 with
      current_row := 99, current_page := 4 } ∧
    (PagerState.new 100 80 20).scroll_up 250 = some { PagerState.new 100 80 20 with
      current_row := 0, current_page := 0 } ∧
    ({ PagerState.new 100 80 20 with
      current_row := 1, current_page := 0 } : PagerState).current_row ≤ 100 - 1 := by
  have h := c5_scroll_clamped (PagerState.new 100 80 20) 250 (by decide) (by decide)
  refine ⟨?_, ?_, h.2.2.2.2.1 _ (by decide)⟩
  · rw [h.1]
    decide
  · rw [h.2.2.1]
    decide

/-- C9: `go_to_first` and `go_to_last` are idempotent: applying either twice
gives the same state as applying it once. -/
theorem c9_first_last_idempotent (s : PagerState) :
    s.go_to_first.go_to_first = s.go_to_first ∧
    s.go_to_last.go_to_last = s.go_to_last := by
  cases s
  constructor
  · simp [PagerState.go_to_first, PagerState.go_to_page]
  · simp [PagerState.go_to_last, PagerState.go_to_page]

/-- Helper: `go_to_page` establishes `current_page = current_row /
rows_per_page` whenever `rows_per_page` is positive, since it sets
`current_row = current_page * rows_per_page`. -/
theorem pageInv_go_to_page (s : PagerState) (p : Nat) (hrpp : 0 < s.rows_per_page) :
    pageInv (s.go_to_page p) := by
  unfold pageInv PagerState.go_to_page
  exact (Nat.mul_div_cancel _ hrpp).symm

/-- C7: every mutating operation re-establishes the invariant
`current_page = current_row / rows_per_page` (for positive `rows_per_page`;
the guarded no-op branches preserve it from the starting state). -/
theorem c7_page_row_invariant (s : PagerState) (p l w h : Nat)
    (hrpp : 0 < s.rows_per_page) (hs : pageInv s) :
    pageInv (s.go_to_page p) ∧ pageInv s.next_page ∧ pageInv s.prev_page ∧
    pageInv s.go_to_first ∧ pageInv s.go_to_last ∧
    (∀ t, s.next_row = some t → pageInv t) ∧
    (∀ t, s.prev_row = some t → pageInv t) ∧
    (∀ t, s.scroll_down l = some t → pageInv t) ∧
    (∀ t, s.scroll_up l = some t → pageInv t) ∧
    (0 < h → pageInv (s.resize w h)) := by
  have hk : s.rows_per_page ≠ 0 := Nat.pos_iff_ne_zero.mp hrpp
  refine ⟨pageInv_go_to_page s p hrpp, ?_, ?_, pageInv_go_to_page s 0 hrpp,
    pageInv_go_to_page s _ hrpp, ?_, ?_, ?_, ?_, ?_⟩
  · unfold PagerState.next_page
    split
    · exact pageInv_go_to_page s _ hrpp
    · exact hs
  · unfold PagerState.prev_page
    split
    · exact pageInv_go_to_page s _ hrpp
    · exact hs
  · intro t ht
    rw [next_row_eq s hk] at ht
    have ht2 := Option.some.inj ht
    subst ht2
    split
    · rfl
    · exact hs
  · intro t ht
    rw [prev_row_eq s hk] at ht
    have ht2 := Option.some.inj ht
    subst ht2
    split
    · rfl
    · exact hs
  · intro t ht
    rw [scroll_down_eq s l hk] at ht
    have ht2 := Option.some.inj ht
    subst ht2
    rfl
  · intro t ht
    rw [scroll_up_eq s l hk] at ht
    have ht2 := Option.some.inj ht
    subst ht2
    rfl
  · intro hh
    exact pageInv_go_to_page _ _ hh

/-- C7 witness: the invariant holds after each operation on the sample state
(100 rows, 20 rows per page, row 50 on page 2). -/
theorem c7_page_row_invariant_witness :
    pageInv (sampleState.go_to_page 3) ∧ pageInv sampleState.next_page ∧
    pageInv sampleState.prev_page ∧ pageInv sampleState.go_to_first ∧
    pageInv sampleState.go_to_last ∧
    pageInv { sampleState with current_row := 51, current_page := 2 } ∧
    pageInv { sampleState with current_row := 49, current_page := 2 } ∧
    pageInv { sampleState with current_row := 57, current_page := 2 } ∧
    pageInv { sampleState with current_row := 43, current_page := 2 } ∧
    pageInv (sampleState.resize 80 10) := by
  have h := c7_page_row_invariant sampleState 3 7 80 10 (by decide) (by decide)
  exact ⟨h.1, h.2.1, h.2.2.1, h.2.2.2.1, h.2.2.2.2.1,
    h.2.2.2.2.2.1 _ (by decide), h.2.2.2.2.2.2.1 _ (by decide),
    h.2.2.2.2.2.2.2.1 _ (by decide), h.2.2.2.2.2.2.2.2.1 _ (by decide),
    h.2.2.2.2.2.2.2.2.2 (by decide)⟩

/-- Helper: updating only `current_row` and `current_page` preserves the
frame fields. -/
theorem framePreserved_update (s : PagerState) (cr cp : Nat) :
    framePreserved { s with current_row := cr, current_page := cp } s :=
  ⟨rfl, rfl, rfl, rfl, rfl⟩

/-- Helper: the frame is preserved reflexively. -/
theorem framePreserved_refl (s : PagerState) : framePreserved s s :=
  ⟨rfl, rfl, rfl, rfl, rfl⟩

/-- C10: every navigation operation touches at most `current_row` and
`current_page`; `total_rows`, `total_pages`, `rows_per_page`,
`terminal_width` and `terminal_height` are left unchanged. -/
theorem c10_navigation_frame (s : PagerState) (p l : Nat) (s₁ s₂ s₃ s₄ : PagerState)
    (h₁ : s.next_row = some s₁) (h₂ : s.prev_row = some s₂)
    (h₃ : s.scroll_down l = some s₃) (h₄ : s.scroll_up l = some s₄) :
    framePreserved (s.go_to_page p) s ∧ framePreserved s.next_page s ∧
    framePreserved s.prev_page s ∧ framePreserved s.go_to_first s ∧
    framePreserved s.go_to_last s ∧ framePreserved s₁ s ∧
    framePreserved s₂ s ∧ framePreserved s₃ s ∧ framePreserved s₄ s := by
  refine ⟨framePreserved_update s _ _, ?_, ?_, framePreserved_update s _ _,
    framePreserved_update s _ _, ?_, ?_, ?_, ?_⟩
  · unfold PagerState.next_page
    split
    · exact framePreserved_update s _ _
    · exact framePreserved_refl s
  · unfold PagerState.prev_page
    split
    · exact framePreserved_update s _ _
    · exact framePreserved_refl s
  · unfold PagerState.next_row at h₁
    split at h₁
    · obtain ⟨cp, _, hf⟩ := Option.map_eq_some'.mp h₁
      subst hf
      exact framePreserved_update s _ _
    · have := Option.some.inj h₁
      subst this
      exact framePreserved_refl s
  · unfold PagerState.prev_row at h₂
    split at h₂
    · obtain ⟨cp, _, hf⟩ := Option.map_eq_some'.mp h₂
      subst hf
      exact framePreserved_update s _ _
    · have := Option.some.inj h₂
      subst this
      exact framePreserved_refl s
  · obtain ⟨cp, _, hf⟩ := Option.map_eq_some'.mp h₃
    subst hf
    exact framePreserved_update s _ _
  · obtain ⟨cp, _, hf⟩ := Option.map_eq_some'.mp h₄
    subst hf
    exact framePreserved_update s _ _

/-- C10 witness: the frame fields of the sample state survive each
operation. -/
theorem c10_navigation_frame_witness :
    framePreserved (sampleState.go_to_page 3) sampleState ∧
    framePreserved sampleState.next_page sampleState ∧
    framePreserved sampleState.prev_page sampleState ∧
    framePreserved sampleState.go_to_first sampleState ∧
    framePreserved sampleState.go_to_last sampleState ∧
    framePreserved { sampleState with current_row := 51, current_page := 2 } sampleState ∧
    framePreserved { sampleState with current_row := 49, current_page := 2 } sampleState ∧
    framePreserved { sampleState with current_row := 57, current_page := 2 } sampleState ∧
    framePreserved { sampleState with current_row := 43, current_page := 2 } sampleState :=
  c10_navigation_frame sampleState 3 7
    { sampleState with current_row := 51, current_page := 2 }
    { sampleState with current_row := 49, current_page := 2 }
    { sampleState with current_row := 57, current_page := 2 }
    { sampleState with current_row := 43, current_page := 2 }
    (by decide) (by decide) (by decide) (by decide)

/-- Helper: the state built by `new` for an empty file on a terminal of
positive height `h`: zero rows, zero pages, cursor at the origin. -/
theorem new_empty_shape (w h : Nat) (hh : 0 < h) :
    PagerState.new 0 w h
      = { current_page := 0, total_pages := 0, rows_per_page := h, total_rows := 0,
          current_row := 0, terminal_height := h, terminal_width := w } := by
  unfold PagerState.new
  simp [hh, Nat.div_eq_of_lt (Nat.sub_lt hh Nat.one_pos)]

/-- C3 (amended): `total_pages ≥ 1` holds whenever `total_rows ≥ 1` or
`rows_per_page = 0`, but for an empty file on a terminal of positive height
the constructor computes `total_pages = 0`; in that empty state the viewport
is still `[0, 0)` and every navigation operation (those that complete, i.e.
all of them since `rows_per_page > 0`) leaves the state unchanged. -/
theorem c3_empty_amended (tr w h p l : Nat) :
    (1 ≤ tr ∨ h = 0 → 1 ≤ (PagerState.new tr w h).total_pages) ∧
    (0 < h → (PagerState.new 0 w h).total_pages = 0) ∧
    (PagerState.new 0 w h).get_viewport_start = 0 ∧
    (PagerState.new 0 w h).get_viewport_end = 0 ∧
    (0 < h → (PagerState.new 0 w h).go_to_page p = PagerState.new 0 w h) ∧
    (0 < h → (PagerState.new 0 w h).next_page = PagerState.new 0 w h) ∧
    (0 < h → (PagerState.new 0 w h).prev_page = PagerState.new 0 w h) ∧
    (0 < h → (PagerState.new 0 w h).go_to_first = PagerState.new 0 w h) ∧
    (0 < h → (PagerState.new 0 w h).go_to_last = PagerState.new 0 w h) ∧
    (0 < h → (PagerState.new 0 w h).next_row = some (PagerState.new 0 w h)) ∧
    (0 < h → (PagerState.new 0 w h).prev_row = some (PagerState.new 0 w h)) ∧
    (0 < h → (PagerState.new 0 w h).scroll_down l = some (PagerState.new 0 w h)) ∧
    (0 < h → (PagerState.new 0 w h).scroll_up l = some (PagerState.new 0 w h)) := by
  refine ⟨?_, ?_, ?_, ?_, ?_, ?_, ?_, ?_, ?_, ?_, ?_, ?_, ?_⟩
  · intro hor
    by_cases hzero : h = 0
    · subst hzero
      exact Nat.le_refl 1
    · have hh : 0 < h := Nat.pos_of_ne_zero hzero
      have htr : 1 ≤ tr := hor.resolve_right hzero
      have h1 : (PagerState.new tr w h).total_pages = (tr + h - 1) / h := by
        simp [PagerState.new, hh]
      rw [h1, Nat.one_le_div_iff hh]
      omega
  · intro hh
    rw [new_empty_shape w h hh]
  · rfl
  · show min _ _ = 0
    simp [PagerState.new]
  · intro hh
    rw [new_empty_shape w h hh]
    simp [PagerState.go_to_page]
  · intro hh
    rw [new_empty_shape w h hh]
    simp [PagerState.next_page]
  · intro hh
    rw [new_empty_shape w h hh]
    simp [PagerState.prev_page]
  · intro hh
    rw [new_empty_shape w h hh]
    simp [PagerState.go_to_first, PagerState.go_to_page]
  · intro hh
    rw [new_empty_shape w h hh]
    simp [PagerState.go_to_last, PagerState.go_to_page]
  · intro hh
    rw [new_empty_shape w h hh]
    simp [PagerState.next_row]
  · intro hh
    rw [new_empty_shape w h hh]
    simp [PagerState.prev_row]
  · intro hh
    rw [new_empty_shape w h hh]
    simp [PagerState.scroll_down, checkedDiv, Nat.pos_iff_ne_zero.mp hh]
  · intro hh
    rw [new_empty_shape w h hh]
    simp [PagerState.scroll_up, checkedDiv, Nat.pos_iff_ne_zero.mp hh]

/-- C3 witness: the amended statement instantiated on an 80×20 terminal,
with 5 rows for the lower bound and an empty file for the rest. -/
theorem c3_empty_amended_witness :
    1 ≤ (PagerState.new 5 80 20).total_pages ∧
    (PagerState.new 0 80 20).total_pages = 0 ∧
    (PagerState.new 0 80 20).get_viewport_start = 0 ∧
    (PagerState.new 0 80 20).get_viewport_end = 0 ∧
    (PagerState.new 0 80 20).go_to_page 3 = PagerState.new 0 80 20 ∧
    (PagerState.new 0 80 20).next_page = PagerState.new 0 80 20 ∧
    (PagerState.new 0 80 20).prev_page = PagerState.new 0 80 20 ∧
    (PagerState.new 0 80 20).go_to_first = PagerState.new 0 80 20 ∧
    (PagerState.new 0 80 20).go_to_last = PagerState.new 0 80 20 ∧
    (PagerState.new 0 80 20).next_row = some (PagerState.new 0 80 20) ∧
    (PagerState.new 0 80 20).prev_row = some (PagerState.new 0 80 20) ∧
    (PagerState.new 0 80 20).scroll_down 7 = some (PagerState.new 0 80 20) ∧
    (PagerState.new 0 80 20).scroll_up 7 = some (PagerState.new 0 80 20) := by
  have h := c3_empty_amended 5 80 20 3 7
  exact ⟨h.1 (Or.inl (by decide)), h.2.1 (by decide), h.2.2.1, h.2.2.2.1,
    h.2.2.2.2.1 (by decide), h.2.2.2.2.2.1 (by decide), h.2.2.2.2.2.2.1 (by decide),
    h.2.2.2.2.2.2.2.1 (by decide), h.2.2.2.2.2.2.2.2.1 (by decide),
    h.2.2.2.2.2.2.2.2.2.1 (by decide), h.2.2.2.2.2.2.2.2.2.2.1 (by decide),
    h.2.2.2.2.2.2.2.2.2.2.2.1 (by decide), h.2.2.2.2.2.2.2.2.2.2.2.2 (by decide)⟩

/-- C8: `Pager::run` only executes the cleanup (leave alternate screen,
disable raw mode) on the normal quit path; a render failure — on the initial
render or inside the event loop — propagates the error with `?` and returns
with the terminal still in raw mode on the alternate screen. -/
theorem c8_render_error_skips_cleanup :
    runModel (fun _ => false) [] = some { ok := false, cleanedUp := false } ∧
    runModel (fun n => n == 0) [PEvent.key PKey.navigate]
      = some { ok := false, cleanedUp := false } ∧
    runModel (fun _ => true)
        [PEvent.key PKey.navigate, PEvent.timeout, PEvent.otherEv, PEvent.key PKey.quit]
      = some { ok := true, cleanedUp := true } := by
  decide
